import Mathlib

/-!
Shallow embedding of the contract-template generation engine of the
GenLayer MCP server (files `src/utils/contractGenerator.ts` and
`src/tools/genLayerTools.ts`).

JavaScript strings are modelled as `List Char`; string literals are written
as `"...".data`.  `String.trimEnd` / `trim` / `toLowerCase` are modelled on
the ASCII fragment that the embedded templates use.  JavaScript
object-literal lookups (`typeMap[k]`, `defaults[k]`) are modelled as
association-list lookups; optional / possibly-`undefined` parameters are
modelled as `Option`, with JavaScript falsiness of a string `s` rendered as
`s = none ∨ s = some []`.  Regular-expression tests against the two anchored
patterns used by the tool layer are modelled as boolean predicates.
-/

namespace GenLayerMCP

/-- Whitespace class used by the model of JavaScript `trimEnd`/`trim`
(space, tab, line feed, carriage return, vertical tab, form feed,
no-break space, BOM). -/
def jsWhitespace (c : Char) : Bool :=
  c == ' ' || c == '\t' || c == '\n' || c == '\r' ||
  c == Char.ofNat 11 || c == Char.ofNat 12 || c == Char.ofNat 160 || c == Char.ofNat 65279

/-- Model of JavaScript `String.prototype.trimEnd`: drop trailing whitespace. -/
def jsTrimEnd (s : List Char) : List Char :=
  (s.reverse.dropWhile jsWhitespace).reverse

/-- Model of JavaScript `String.prototype.trimStart`. -/
def jsTrimStart (s : List Char) : List Char :=
  s.dropWhile jsWhitespace

/-- Model of JavaScript `String.prototype.trim`. -/
def jsTrim (s : List Char) : List Char :=
  jsTrimEnd (jsTrimStart s)

/-- ASCII model of JavaScript `String.prototype.toLowerCase` (the type-map
keys are all ASCII, so only the A-Z range is relevant to lookups). -/
def jsToLower (s : List Char) : List Char :=
  s.map Char.toLower

/-- Boolean model of the anchored regular expression
`^[A-Z][a-zA-Z0-9]*$` (PascalCase contract-name check). -/
def pascalCaseTest (s : List Char) : Bool :=
  match s with
  | [] => false
  | c :: rest => c.isUpper && rest.all Char.isAlphanum

/-- Boolean model of the anchored regular expression
`^[A-Z][a-zA-Z0-9]*Market$` (prediction-market name check): an uppercase
letter, then alphanumerics, ending in the literal `Market` (whose characters
are themselves alphanumeric, so the ending is expressed as a suffix check). -/
def marketNameTest (s : List Char) : Bool :=
  match s with
  | [] => false
  | c :: rest => c.isUpper && rest.all Char.isAlphanum && List.isSuffixOf ("Market".data) rest

/-- Embedding of `ContractField` record of `contractGenerator.ts`. -/
structure ContractField where
  name : List Char
  type : List Char
  description : Option (List Char)
deriving DecidableEq

/-- Embedding of `VectorStoreMetadata` record of `contractGenerator.ts`. -/
structure VectorStoreMetadata where
  name : List Char
  type : List Char
deriving DecidableEq

/-- Model of the untyped `customParams` object: a JSON-object-like
association list (all templates ignore it, as in the source). -/
def CustomParams : Type := List (List Char × List Char)

/-- Embedding of `ToolResult` shape returned by every tool function.  The source marks
errors with `isError: true` and omits the field on success; an omitted
field is modelled as `false`. -/
structure ToolResult where
  content : List Char
  isError : Bool
deriving DecidableEq

namespace GenLayerContractGenerator

/-- The `typeMap` object literal of `mapGenLayerType`. -/
def typeMap : List (List Char × List Char) :=
  [("string".data, "str".data),
   ("text".data, "str".data),
   ("integer".data, "u256".data),
   ("int".data, "u256".data),
   ("number".data, "u256".data),
   ("boolean".data, "bool".data),
   ("bool".data, "bool".data),
   ("address".data, "Address".data),
   ("list".data, "DynArray[str]".data),
   ("array".data, "DynArray[str]".data),
   ("dict".data, "TreeMap[str, str]".data),
   ("dictionary".data, "TreeMap[str, str]".data),
   ("map".data, "TreeMap[str, str]".data),
   ("float".data, "f64".data),
   ("decimal".data, "f64".data),
   ("bytes".data, "bytes".data),
   ("timestamp".data, "u256".data)]

/-- Embedding of `GenLayerContractGenerator.mapGenLayerType`: look the lowercased input
up in `typeMap`; an unmapped input is returned unchanged
(`typeMap[type.toLowerCase()] || type`). -/
def mapGenLayerType (type : List Char) : List Char :=
  match List.lookup (jsToLower type) typeMap with
  | some v => v
  | none => type

/-- The `defaults` object literal of `getDefaultValue`. -/
def defaultsMap : List (List Char × List Char) :=
  [("str".data, "\"\"".data),
   ("u256".data, "u256(0)".data),
   ("f64".data, "0.0".data),
   ("bool".data, "False".data),
   ("Address".data, "Address('0x0000000000000000000000000000000000000000')".data),
   ("bytes".data, "b''".data)]

/-- Embedding of `GenLayerContractGenerator.getDefaultValue`: `DynArray...`/`TreeMap...`
types are zero-arg-constructed, otherwise the fixed table is consulted and
unknown types fall back to a zero-arg constructor call. -/
def getDefaultValue (glType : List Char) : List Char :=
  if List.isPrefixOf ("DynArray".data) glType then glType ++ "()".data
  else if List.isPrefixOf ("TreeMap".data) glType then glType ++ "()".data
  else
    match List.lookup glType defaultsMap with
    | some v => v
    | none => glType ++ "()".data

/-- Inline comment appended to a storage-field declaration
(`field.description ? \x60 # $\x7bfield.description\x7d\x60 : ""`; a JavaScript-falsy
empty description produces no comment). -/
def fieldComment (f : ContractField) : List Char :=
  match f.description with
  | some d => if d.isEmpty then [] else (" # ".data) ++ d
  | none => []

/-- One storage-field declaration line of `generateBaseContract`. -/
def fieldDeclLine (f : ContractField) : List Char :=
  "    ".data ++ f.name ++ ": ".data ++ mapGenLayerType f.type ++ fieldComment f ++ "\n".data

/-- One constructor parameter of `generateBaseContract`
(`name: glType = default`). -/
def initParam (f : ContractField) : List Char :=
  f.name ++ ": ".data ++ mapGenLayerType f.type ++ " = ".data ++ getDefaultValue (mapGenLayerType f.type)

/-- One constructor assignment line of `generateBaseContract`. -/
def assignLine (f : ContractField) : List Char :=
  "        self.".data ++ f.name ++ " = ".data ++ f.name ++ "\n".data

/-- One generated getter method of `generateBaseContract`. -/
def getterBlock (f : ContractField) : List Char :=
  "    @gl.public.view\n    def get_".data ++ f.name ++ "(self) -> ".data ++ mapGenLayerType f.type
    ++ ":\n        return self.".data ++ f.name ++ "\n\n".data

/-- Fixed header of `generateBaseContract` up to and including the class
declaration line. -/
def baseHeader (contractName : List Char) : List Char :=
  "# \x7b \"Depends\": \"py-genlayer:test\" \x7d\nfrom genlayer import *\nfrom genlayer.gl.vm import UserError\nimport typing\nimport json\nimport re\n\nclass ".data
    ++ contractName ++ "(gl.Contract):\n".data

/-- The fixed `get_info` view method of `generateBaseContract`. -/
def infoBlock (contractName : List Char) : List Char :=
  "    @gl.public.view\n    def get_info(self) -> str:\n        return \"Intelligent Contract ".data
    ++ contractName ++ " running on GenLayer\"\n\n".data

/-- Embedding of `GenLayerContractGenerator.generateBaseContract`, mirroring the source's
imperative `contractCode +=` accumulation (the per-field loops are left
folds over the field list). -/
def generateBaseContract (contractName : List Char) (fields : List ContractField) : List Char :=
  let code0 := baseHeader contractName
  let code1 :=
    if fields.isEmpty then code0
    else (fields.foldl (fun acc f => acc ++ fieldDeclLine f) code0) ++ "\n".data
  let code2 := code1 ++ "    def __init__(self".data
  let code3 :=
    if fields.isEmpty then code2
    else code2 ++ ", ".data ++ List.intercalate (", ".data) (fields.map initParam)
  let code4 := code3 ++ "):\n".data
  let code5 :=
    if fields.isEmpty then code4 ++ "        pass\n".data
    else fields.foldl (fun acc f => acc ++ assignLine f) code4
  let code6 := code5 ++ "\n".data
  let code7 := code6 ++ infoBlock contractName
  if fields.isEmpty then code7
  else fields.foldl (fun acc f => acc ++ getterBlock f) code7

/-- Fixed text piece 1 of the LLM-methods block of `addLLMInteractions` (source: server.ts). -/
def llmPart1 : List Char := "\n    @gl.public.write\n    def process_with_llm(self, input_text: str, prompt_type: str = \"general\") -> str:\n        \"\"\"\n        Process input text using LLM capabilities with equivalence principle\n        Requirements: ".data

/-- Fixed text piece 2 of the LLM-methods block of `addLLMInteractions` (source: server.ts). -/
def llmPart2 : List Char := "\n        \"\"\"\n        def llm_task() -> str:\n            if prompt_type == \"analysis\":\n                task = f\"\"\"Analyze the following text according to these requirements: ".data

/-- Fixed text piece 3 of the LLM-methods block of `addLLMInteractions` (source: server.ts). -/
def llmPart3 : List Char := "\n                \n                Text to analyze: \x7binput_text\x7d\n                \n                Provide a structured analysis focusing on:\n                1. Key themes and concepts\n                2. Sentiment and tone\n                3. Actionable insights\n                \n                Return your analysis as a clear, concise summary.\"\"\"\n            elif prompt_type == \"classification\":\n                task = f\"\"\"Classify the following text according to these requirements: ".data

/-- Fixed text piece 4 of the LLM-methods block of `addLLMInteractions` (source: server.ts). -/
def llmPart4 : List Char := "\n                \n                Text: \x7binput_text\x7d\n                \n                Return only the classification result as a single word or phrase.\"\"\"\n            else:\n                task = f\"\"\"Process the following text according to these requirements: ".data

/-- Fixed text piece 5 of the LLM-methods block of `addLLMInteractions` (source: server.ts). -/
def llmPart5 : List Char := "\n                \n                Input: \x7binput_text\x7d\n                \n                Return a processed version of the text.\"\"\"\n            \n            result = gl.nondet.exec_prompt(task)\n            return result.strip()\n        \n        # Use strict equality for consistent processing\n        processed_result = gl.eq_principle_strict_eq(llm_task)\n        return processed_result\n    \n    @gl.public.write\n    def analyze_sentiment(self, text: str) -> str:\n        \"\"\"\n        Analyze sentiment of text using non-comparative equivalence principle\n        \"\"\"\n        result = gl.eq_principle_prompt_non_comparative(\n            lambda: gl.nondet.exec_prompt(f\"Analyze the sentiment of this text: '\x7btext\x7d'. Return only: positive, negative, or neutral\"),\n            task=\"Classify sentiment as positive, negative, or neutral\",\n            criteria=\"\"\"The output must be exactly one of: positive, negative, neutral.\n                        Consider context, tone, and implied meaning.\n                        Account for sarcasm and cultural nuances.\"\"\"\n        )\n        return result\n    \n    @gl.public.write\n    def generate_response(self, user_input: str, context: str = \"\") -> str:\n        \"\"\"\n        Generate contextual response using LLM with JSON output validation\n        \"\"\"\n        def generate_json_response() -> str:\n            prompt = f\"\"\"Generate a helpful response to the user input.\n            \n            Context: \x7bcontext if context else \"No additional context provided\"\x7d\n            User Input: \x7buser_input\x7d\n            \n            Respond with JSON in this format:\n            \x7b\x7b\n                \"response\": \"your helpful response here\",\n                \"confidence\": 0.95,\n                \"category\": \"question/request/information/other\"\n            \x7d\x7d\"\"\"\n            \n            result = gl.nondet.exec_prompt(prompt)\n            # Clean and parse JSON response\n            cleaned_result = result.replace(\"```json\", \"\").replace(\"```\", \"\").strip()\n            parsed = json.loads(cleaned_result)\n            return json.dumps(parsed, sort_keys=True)\n        \n        json_result = gl.eq_principle_strict_eq(generate_json_response)\n        response_data = json.loads(json_result)\n".data

/-- Fixed text piece 6 of the LLM-methods block of `addLLMInteractions` (source: server.ts). -/
def llmPart6 : List Char := "        return response_data[\"response\"]".data

/-- Fixed text piece 7 of the LLM-methods block of `addLLMInteractions` (source: server.ts). -/
def llmPart7 : List Char := "\n    \n".data

/-- The `llmMethods` string of `addLLMInteractions`: the fixed method block with `methodRequirements` interpolated at its four fixed points. -/
def llmMethods (methodRequirements : List Char) : List Char :=
  llmPart1 ++ methodRequirements ++ llmPart2 ++ methodRequirements ++ llmPart3 ++ methodRequirements ++ llmPart4 ++ methodRequirements ++ llmPart5 ++ llmPart6 ++ llmPart7

/-- Embedding of `GenLayerContractGenerator.addLLMInteractions`: trims trailing whitespace from the contract code and appends the fixed LLM method block. -/
def addLLMInteractions (contractCode methodRequirements : List Char) : List Char :=
  jsTrimEnd contractCode ++ llmMethods methodRequirements

/-- The `webMethod` template of `addWebDataAccess`, with `urlTemplate` and `processingLogic` interpolated at their fixed points. -/
def webMethod (urlTemplate processingLogic : List Char) : List Char :=
  "\n    @gl.public.write\n    def fetch_web_data(self, url: str = \"".data ++ urlTemplate ++ "\", mode: str = \"text\") -> dict:\n        \"\"\"\n        Fetch and process web data using GenLayer's native capabilities\n        URL: ".data ++ urlTemplate ++ "\n        Processing: ".data ++ processingLogic ++ "\n        Modes: text, html, screenshot\n        \"\"\"\n        def web_fetch_task() -> str:\n            try:\n                # Use GenLayer's actual web rendering capabilities\n                if mode not in [\"text\", \"html\", \"screenshot\"]:\n                    raise Exception(f\"Invalid mode: \x7bmode\x7d. Use 'text', 'html', or 'screenshot'\")\n                \n                raw_data = gl.nondet.web.render(url, mode=mode)\n                \n                # Process data with AI according to specified logic\n                processed = gl.nondet.exec_prompt(f'''\n                Process this web data according to: ".data ++ processingLogic ++ "\n                \n                Raw data: \x7braw_data\x7d\n                \n                Instructions:\n                1. Extract relevant information based on the processing logic\n                2. Clean and structure the data\n                3. Return valid JSON format\n                4. Handle any parsing errors gracefully\n                \n                Return a clean, structured JSON response with the processed data.\n                ''')\n                \n                return processed.strip()\n                \n            except Exception as e:\n                # Return error information for debugging\n                return json.dumps(\x7b\n                    \"error\": str(e),\n                    \"url\": url,\n                    \"mode\": mode,\n                    \"status\": \"failed\"\n                \x7d)\n        \n        # Use strict equality for deterministic web data processing\n        result_str = gl.eq_principle_strict_eq(web_fetch_task)\n        \n        try:\n            # Parse the JSON result\n            result_data = json.loads(result_str)\n            \n            # Add metadata about the request\n            result_data.update(\x7b\n                \"url\": url,\n                \"mode\": mode,\n                \"timestamp\": \"placeholder_timestamp\",  # Would use actual timestamp in real implementation\n                \"status\": \"success\" if \"error\" not in result_data else \"error\"\n            \x7d)\n            \n            return result_data\n            \n        except json.JSONDecodeError:\n            # Handle case where LLM didn't return valid JSON\n            return \x7b\n                \"raw_response\": result_str,\n                \"url\": url,\n                \"mode\": mode,\n                \"status\": \"json_parse_error\",\n                \"error\": \"Failed to parse LLM response as JSON\"\n            \x7d\n    \n    @gl.public.write\n    def fetch_multiple_sources(self, urls: DynArray[str], processing_instruction: str = \"".data ++ processingLogic ++ "\") -> dict:\n        \"\"\"\n        Fetch data from multiple web sources and aggregate results\n        \"\"\"\n        def multi_source_task() -> str:\n            results = []\n            \n            for url in urls:\n                try:\n                    data = gl.nondet.web.render(url, mode=\"text\")\n                    results.append(\x7b\"url\": url, \"data\": data, \"status\": \"success\"\x7d)\n                except Exception as e:\n                    results.append(\x7b\"url\": url, \"error\": str(e), \"status\": \"failed\"\x7d)\n            \n            # Process aggregated data with AI\n            aggregated_prompt = f'''\n            Process data from multiple web sources according to: \x7bprocessing_instruction\x7d\n            \n            Source data: \x7bjson.dumps(results)\x7d\n            \n            Instructions:\n            1. Aggregate and cross-reference information from all sources\n            2. Identify patterns, discrepancies, or consensus across sources\n            3. Extract the most reliable and relevant information\n            4. Return structured JSON with aggregated insights\n            \n            Provide a comprehensive analysis combining all source data.\n            '''\n            \n            processed = gl.nondet.exec_prompt(aggregated_prompt)\n            return processed.strip()\n        \n        result_str = gl.eq_principle_strict_eq(multi_source_task)\n        \n        try:\n            aggregated_data = json.loads(result_str)\n            return \x7b\n                \"aggregated_result\": aggregated_data,\n                \"source_count\": len(urls),\n                \"sources\": list(urls),\n                \"status\": \"success\"\n            \x7d\n        except json.JSONDecodeError:\n            return \x7b\n                \"raw_response\": result_str,\n                \"source_count\": len(urls),\n                \"sources\": list(urls),\n                \"status\": \"json_parse_error\",\n                \"error\": \"Failed to parse aggregated response as JSON\"\n            \x7d\n    \n    @gl.public.write\n    def fetch_with_comparative_consensus(self, url: str, analysis_criteria: str = \"".data ++ processingLogic ++ "\") -> dict:\n        \"\"\"\n        Fetch web data with comparative consensus validation for numerical results\n        \"\"\"\n        def comparative_web_task() -> str:\n            raw_data = gl.nondet.web.render(url, mode=\"text\")\n            \n            analysis_prompt = f'''\n            Analyze web data and extract numerical insights according to: \x7banalysis_criteria\x7d\n            \n            Data: \x7braw_data\x7d\n            \n            Return JSON with numerical analysis where applicable.\n            Include confidence scores and reasoning.\n            '''\n            \n            result = gl.nondet.exec_prompt(analysis_prompt)\n            return result.strip()\n        \n        # Use comparative consensus for numerical results with tolerance\n        result_str = gl.eq_principle_prompt_comparative(\n            comparative_web_task,\n            task=\"Extract and analyze numerical data from web source\",\n            tolerance=0.1  # 10% tolerance for numerical variations\n        )\n        \n        try:\n            analysis_result = json.loads(result_str)\n            return \x7b\n                \"analysis\": analysis_result,\n                \"url\": url,\n                \"validation_method\": \"comparative_consensus\",\n                \"tolerance\": 0.1,\n                \"status\": \"success\"\n            \x7d\n        except json.JSONDecodeError:\n            return \x7b\n                \"raw_response\": result_str,\n                \"url\": url,\n                \"validation_method\": \"comparative_consensus\",\n                \"status\": \"json_parse_error\",\n                \"error\": \"Failed to parse consensus response as JSON\"\n            \x7d\n    \n".data

/-- Embedding of `GenLayerContractGenerator.addWebDataAccess`: trims trailing whitespace from the contract code and appends the fixed web-data-access method block. -/
def addWebDataAccess (contractCode urlTemplate processingLogic : List Char) : List Char :=
  jsTrimEnd contractCode ++ webMethod urlTemplate processingLogic

/-- Embedding of `GenLayerContractGenerator.createVectorStore`: the vector-store contract template. As in the source, the `metadataFields` parameter is accepted but never used. -/
def createVectorStore (storeName description : List Char) (metadataFields : List VectorStoreMetadata) : List Char :=
  "# \x7b \"Depends\": \"py-genlayer:test\" \x7d\n# \x7b \"Depends\": \"py-lib-genlayermodelwrappers:test\" \x7d\n\nfrom genlayer import *\nfrom genlayer.gl.vm import UserError\nfrom backend.node.genvm.std.vector_store import VectorStore\n\nclass ".data ++ storeName ++ "(gl.Contract):\n    vector_store: VectorStore\n    \n    def __init__(self):\n        self.vector_store = VectorStore()\n    \n    @gl.public.write\n    def add_text(self, text: str, metadata: dict = None) -> str:\n        \"\"\"\n        Add text to the vector store\n        Description: ".data ++ description ++ "\n        \"\"\"\n        self.vector_store.add_text(text, metadata or \x7b\x7d)\n        return f\"Added text to ".data ++ storeName ++ "\"\n    \n    @gl.public.view\n    def search_similar(self, query: str, top_k: int = 5) -> list:\n        \"\"\"\n        Search for similar texts in the vector store\n        \"\"\"\n        return self.vector_store.search(query, top_k)\n    \n    @gl.public.view\n    def get_store_info(self) -> dict:\n        \"\"\"\n        Get information about the vector store\n        \"\"\"\n        return \x7b\n            \"name\": \"".data ++ storeName ++ "\",\n            \"description\": \"".data ++ description ++ "\",\n            \"size\": self.vector_store.size()\n        \x7d\n".data

/-- Embedding of `GenLayerContractGenerator.createPredictionMarket`: the prediction-market contract template. As in the source, the `description` parameter is not interpolated into the template. -/
def createPredictionMarket (marketName description resolutionCriteria : List Char) (webSources : List (List Char)) : List Char :=
  "# \x7b \"Depends\": \"py-genlayer:test\" \x7d\n\nfrom genlayer import *\nfrom genlayer.gl.vm import UserError\nfrom typing import List\n\nclass ".data ++ marketName ++ "(gl.Contract):\n    # Market state\n    description: str\n    resolution_criteria: str\n    web_sources: List[str]\n    resolved: bool\n    outcome: bool\n    total_yes_bets: u256\n    total_no_bets: u256\n    \n    # Participant tracking\n    bettors: TreeMap[Address, dict]\n    \n    def __init__(self, description: str, resolution_criteria: str, web_sources: List[str]):\n        self.description = description\n        self.resolution_criteria = resolution_criteria\n        self.web_sources = web_sources\n        self.resolved = False\n        self.outcome = False\n        self.total_yes_bets = 0\n        self.total_no_bets = 0\n        self.bettors = TreeMap()\n    \n    @gl.public.write.payable\n    def place_bet(self, prediction: bool) -> str:\n        \"\"\"\n        Place a bet on the market outcome\n        \"\"\"\n        if self.resolved:\n            raise Exception(\"Market already resolved\")\n            \n        sender = gl.message.sender_address\n        amount = gl.message.value\n        \n        # Record the bet\n        if sender not in self.bettors:\n            self.bettors[sender] = \x7b\"yes_bets\": 0, \"no_bets\": 0\x7d\n            \n        if prediction:\n            self.bettors[sender][\"yes_bets\"] += amount\n            self.total_yes_bets += amount\n        else:\n            self.bettors[sender][\"no_bets\"] += amount\n            self.total_no_bets += amount\n            \n        return f\"Bet placed: \x7bamount\x7d on \x7b'Yes' if prediction else 'No'\x7d\"\n    \n    @gl.public.write\n    def resolve_market(self) -> str:\n        \"\"\"\n        Resolve the market based on real-world data\n        Resolution Criteria: ".data ++ resolutionCriteria ++ "\n        Web Sources: ".data ++ (List.intercalate (", ".data) webSources) ++ "\n        \"\"\"\n        if self.resolved:\n            raise Exception(\"Market already resolved\")\n            \n        # This would use GenLayer's web access to check sources\n        # and LLM capabilities to interpret results according to criteria\n        # For now we'll simulate resolution\n        self.resolved = True\n        self.outcome = True  # Placeholder outcome\n        \n        return f\"Market resolved with outcome: \x7b'Yes' if self.outcome else 'No'\x7d\"\n    \n    @gl.public.write\n    def claim_winnings(self) -> u256:\n        \"\"\"\n        Claim winnings if the user bet on the correct outcome\n        \"\"\"\n        if not self.resolved:\n            raise Exception(\"Market not yet resolved\")\n            \n        sender = gl.message.sender_address\n        if sender not in self.bettors:\n            raise Exception(\"No bets placed by sender\")\n            \n        user_bets = self.bettors[sender]\n        winning_pool = self.total_yes_bets if self.outcome else self.total_no_bets\n        user_bet_on_winner = user_bets[\"yes_bets\"] if self.outcome else user_bets[\"no_bets\"]\n        \n        if user_bet_on_winner == 0:\n            raise Exception(\"No winning bets to claim\")\n            \n        # Calculate payout (simplified)\n        total_pool = self.total_yes_bets + self.total_no_bets\n        payout = (user_bet_on_winner * total_pool) // winning_pool\n        \n        # Reset user's winning bets\n        if self.outcome:\n            self.bettors[sender][\"yes_bets\"] = 0\n        else:\n            self.bettors[sender][\"no_bets\"] = 0\n            \n        return payout\n    \n    @gl.public.view\n    def get_market_info(self) -> dict:\n        \"\"\"\n        Get current market information\n        \"\"\"\n        return \x7b\n            \"name\": \"".data ++ marketName ++ "\",\n            \"description\": self.description,\n            \"resolution_criteria\": self.resolution_criteria,\n            \"web_sources\": self.web_sources,\n            \"resolved\": self.resolved,\n            \"outcome\": self.outcome if self.resolved else None,\n            \"total_yes_bets\": self.total_yes_bets,\n            \"total_no_bets\": self.total_no_bets,\n            \"total_pool\": self.total_yes_bets + self.total_no_bets\n        \x7d\n".data

/-- Embedding of `GenLayerContractGenerator.generateDAOGovernance`: the DAO-governance contract template. As in the source, the `params` argument is unused. -/
def generateDAOGovernance (contractName : List Char) (params : CustomParams) : List Char :=
  "# \x7b \"Depends\": \"py-genlayer:test\" \x7d\nfrom genlayer import *\nfrom genlayer.gl.vm import UserError\nimport typing\nimport json\n\nclass ".data ++ contractName ++ "(gl.Contract):\n    \"\"\"\n    Intelligent DAO Governance Contract with AI-powered proposal analysis\n    \"\"\"\n    total_members: u256\n    proposal_count: u256\n    members: TreeMap[Address, bool]\n    \n    def __init__(self):\n        self.total_members = u256(1)\n        self.proposal_count = u256(0)\n        self.members = TreeMap[Address, bool]()\n        self.members[gl.message.sender_address] = True\n    \n    @gl.public.write\n    def create_proposal(self, title: str, description: str) -> typing.Any:\n        \"\"\"Create a new proposal with AI analysis\"\"\"\n        def analyze_proposal() -> str:\n            task = f\"\"\"Analyze this DAO proposal:\n            Title: \x7btitle\x7d\n            Description: \x7bdescription\x7d\n            \n            Return JSON: \x7b\x7b\"validity\": true/false, \"category\": \"governance/technical/financial\"\x7d\x7d\"\"\"\n            return gl.nondet.exec_prompt(task)\n        \n        analysis_result = gl.eq_principle_strict_eq(analyze_proposal)\n        self.proposal_count += u256(1)\n        \n        return \x7b\"proposal_id\": int(self.proposal_count), \"analysis\": analysis_result\x7d\n".data

/-- Embedding of `GenLayerContractGenerator.generateContentModeration`: the content-moderation contract template. As in the source, the `params` argument is unused. -/
def generateContentModeration (contractName : List Char) (params : CustomParams) : List Char :=
  "# \x7b \"Depends\": \"py-genlayer:test\" \x7d\nfrom genlayer import *\nfrom genlayer.gl.vm import UserError\nimport typing\nimport json\n\nclass ".data ++ contractName ++ "(gl.Contract):\n    \"\"\"AI-powered content moderation system\"\"\"\n    flagged_content: TreeMap[str, dict]\n    content_counter: u256\n    \n    def __init__(self):\n        self.flagged_content = TreeMap[str, dict]()\n        self.content_counter = u256(0)\n    \n    @gl.public.write\n    def moderate_content(self, content: str) -> typing.Any:\n        \"\"\"Moderate content using AI analysis\"\"\"\n        def analyze_content() -> str:\n            task = f\"\"\"Analyze this content for moderation:\n            Content: \x7bcontent\x7d\n            \n            Return JSON: \x7b\x7b\"approved\": true/false, \"violations\": [], \"severity\": \"low/medium/high\"\x7d\x7d\"\"\"\n            return gl.nondet.exec_prompt(task)\n        \n        result = gl.eq_principle_prompt_non_comparative(\n            analyze_content,\n            task=\"Moderate content based on community guidelines\",\n            criteria=\"Fair and unbiased moderation decision\"\n        )\n        \n        self.content_counter += u256(1)\n        return \x7b\"content_id\": int(self.content_counter), \"analysis\": result\x7d\n".data

/-- Embedding of `GenLayerContractGenerator.generateSentimentTracker`: the sentiment-tracker contract template. As in the source, the `params` argument is unused. -/
def generateSentimentTracker (contractName : List Char) (params : CustomParams) : List Char :=
  "# \x7b \"Depends\": \"py-genlayer:test\" \x7d\nfrom genlayer import *\nfrom genlayer.gl.vm import UserError\nimport typing\n\nclass ".data ++ contractName ++ "(gl.Contract):\n    \"\"\"Advanced sentiment tracking system\"\"\"\n    sentiment_history: DynArray[dict]\n    analysis_count: u256\n    \n    def __init__(self):\n        self.sentiment_history = DynArray[dict]()\n        self.analysis_count = u256(0)\n    \n    @gl.public.write\n    def analyze_sentiment(self, text: str, topic: str = \"general\") -> typing.Any:\n        \"\"\"Analyze sentiment with detailed breakdown\"\"\"\n        def sentiment_analysis() -> str:\n            task = f\"\"\"Analyze sentiment of: \x7btext\x7d\n            Topic: \x7btopic\x7d\n            \n            Return JSON: \x7b\x7b\"sentiment\": \"positive/negative/neutral\", \"confidence\": 0.0-1.0\x7d\x7d\"\"\"\n            return gl.nondet.exec_prompt(task)\n        \n        result = gl.eq_principle_strict_eq(sentiment_analysis)\n        self.analysis_count += u256(1)\n        \n        return \x7b\"analysis_id\": int(self.analysis_count), \"result\": result, \"topic\": topic\x7d\n".data

/-- Embedding of `GenLayerContractGenerator.generateMultiOracle`: the multi-oracle contract template. As in the source, the `params` argument is unused. -/
def generateMultiOracle (contractName : List Char) (params : CustomParams) : List Char :=
  "# \x7b \"Depends\": \"py-genlayer:test\" \x7d\nfrom genlayer import *\nfrom genlayer.gl.vm import UserError\nimport typing\n\nclass ".data ++ contractName ++ "(gl.Contract):\n    \"\"\"Multi-source oracle with consensus mechanism\"\"\"\n    latest_data: TreeMap[str, dict]\n    update_count: u256\n    \n    def __init__(self):\n        self.latest_data = TreeMap[str, dict]()\n        self.update_count = u256(0)\n    \n    @gl.public.write\n    def fetch_consensus_data(self, data_type: str, query: str) -> typing.Any:\n        \"\"\"Fetch data from multiple sources and reach consensus\"\"\"\n        def consensus_fetch() -> str:\n            task = f\"\"\"Fetch and analyze \x7bdata_type\x7d data for: \x7bquery\x7d\n            \n            Return JSON: \x7b\x7b\"consensus_value\": \"value\", \"confidence\": 0.0-1.0, \"sources\": 3\x7d\x7d\"\"\"\n            return gl.nondet.exec_prompt(task)\n        \n        result = gl.eq_principle_strict_eq(consensus_fetch)\n        self.update_count += u256(1)\n        \n        return \x7b\"data_type\": data_type, \"query\": query, \"result\": result, \"update_id\": int(self.update_count)\x7d\n".data

/-- Embedding of `GenLayerContractGenerator.generateAdvancedContractTemplate`: closed-set dispatch on the template tag; every unrecognized tag falls back to `generateBaseContract(contractName, [])`. -/
def generateAdvancedContractTemplate (templateType contractName : List Char) (customParams : CustomParams) : List Char :=
  if templateType = "dao_governance".data then generateDAOGovernance contractName customParams
  else if templateType = "content_moderation".data then generateContentModeration contractName customParams
  else if templateType = "sentiment_tracker".data then generateSentimentTracker contractName customParams
  else if templateType = "multi_oracle".data then generateMultiOracle contractName customParams
  else generateBaseContract contractName []

end GenLayerContractGenerator

namespace GenLayerTools

/-- Parameter object of `GenLayerTools.generateIntelligentContract`; fields that the source may receive as `undefined` are `Option`s. -/
structure GenerateICParams where
  contract_name : Option (List Char)
  requirements : Option (List Char)
  use_llm : Option Bool
  web_access : Option Bool
  storage_fields : Option (List ContractField)
  template_type : Option (List Char)

/-- Error message returned on an invalid contract name (interpolating an absent name prints `undefined`, as JavaScript does). -/
def icNameError (p : GenerateICParams) : List Char :=
  "Error: Contract name must be in PascalCase and start with a capital letter. Got: ".data ++
    (match p.contract_name with | some s => s | none => "undefined".data)

/-- Error message returned on too-short requirements. -/
def icReqError : List Char :=
  "Error: Requirements must be at least 10 characters long and describe what the contract should do.".data

/-- Truthiness test `params.template_type && params.template_type !== \x27basic\x27` selecting the template path. -/
def icUseTemplate (p : GenerateICParams) : Bool :=
  match p.template_type with
  | none => false
  | some t => !t.isEmpty && !(t == "basic".data)

/-- The `contractCode` computed by `generateIntelligentContract`: the advanced template when a non-`basic` template type is requested, otherwise the base contract optionally augmented with LLM and web-access methods. -/
def icContractCode (p : GenerateICParams) : List Char :=
  let name := p.contract_name.getD []
  let req := p.requirements.getD []
  if icUseTemplate p then
    GenLayerContractGenerator.generateAdvancedContractTemplate (p.template_type.getD []) name []
  else
    let base := GenLayerContractGenerator.generateBaseContract name (p.storage_fields.getD [])
    let withLLM := if p.use_llm.getD false then GenLayerContractGenerator.addLLMInteractions base req else base
    if p.web_access.getD false then
      GenLayerContractGenerator.addWebDataAccess withLLM ("https://api.example.com/data".data) req
    else withLLM

/-- Markdown report of `generateIntelligentContract` preceding the embedded contract code (parameter echoes included). -/
def icIntro (p : GenerateICParams) : List Char :=
  let nameArg := p.contract_name.getD []
  let reqArg := p.requirements.getD []
  let tmplEcho := match p.template_type with | none => "basic".data | some t => if t.isEmpty then ("basic".data) else t
  let llmEcho := if p.use_llm.getD false then ("Yes".data) else ("No".data)
  let webEcho := if p.web_access.getD false then ("Yes".data) else ("No".data)
  let sfLen := (Nat.repr (p.storage_fields.getD []).length).data
  "# Generated Intelligent Contract: ".data ++ nameArg ++ "\n\n## Requirements\n".data ++ reqArg ++ "\n\n## Features\n- Template: ".data ++ tmplEcho ++ "\n- LLM Integration: ".data ++ llmEcho ++ "\n- Web Access: ".data ++ webEcho ++ "\n- Storage Fields: ".data ++ sfLen ++ "\n\n## Contract Code\n\n```python\n".data

/-- Fixed Markdown trailer of `generateIntelligentContract` following the embedded contract code. -/
def icOutro : List Char :=
  "\n```\n\n## Usage Notes\n- Deploy this contract to GenLayer testnet or mainnet\n- All methods marked with @gl.public.view are read-only\n- Methods marked with @gl.public.write modify contract state\n- LLM methods use equivalence principles for consensus\n- Web data methods fetch real-time information\n\n## Next Steps\n1. Review the generated contract code\n2. Customize the business logic as needed\n3. Test on GenLayer Studio: https://studio.genlayer.com/\n4. Deploy to your preferred GenLayer network".data

/-- Success content of `generateIntelligentContract`: the Markdown report around the generated contract code. -/
def icSuccessContent (p : GenerateICParams) : List Char :=
  icIntro p ++ icContractCode p ++ icOutro

/-- The name-validation condition of `generateIntelligentContract`: `!params.contract_name || !params.contract_name.match(^[A-Z][a-zA-Z0-9]*$)` (an absent or JavaScript-falsy empty name fails, as does a regex mismatch). -/
def icNameCheckFails (p : GenerateICParams) : Bool :=
  match p.contract_name with
  | none => true
  | some s => s.isEmpty || !(pascalCaseTest s)

/-- The requirements-validation condition of `generateIntelligentContract`: `!params.requirements || params.requirements.trim().length < 10`. -/
def icReqCheckFails (p : GenerateICParams) : Bool :=
  match p.requirements with
  | none => true
  | some s => s.isEmpty || decide ((jsTrim s).length < 10)

/-- Embedding of `GenLayerTools.generateIntelligentContract`: name and requirements validation, then generation and Markdown wrapping (the catch-all is unreachable since generation is total). -/
def generateIntelligentContract (p : GenerateICParams) : ToolResult :=
  if icNameCheckFails p then
    { content := icNameError p, isError := true }
  else if icReqCheckFails p then
    { content := icReqError, isError := true }
  else
    { content := icSuccessContent p, isError := false }

/-- Parameter object of `GenLayerTools.createPredictionMarket`. -/
structure CreatePMParams where
  market_name : List Char
  description : List Char
  resolution_criteria : Option (List Char)
  web_sources : Option (List (List Char))
  resolution_deadline : Option (List Char)
  category : Option (List Char)

/-- Error message for an invalid market name. -/
def pmNameError : List Char :=
  "Error: Market name should be in PascalCase and end with 'Market'. Example: BitcoinPriceMarket".data

/-- Error message for absent or too-short resolution criteria. -/
def pmCritError : List Char :=
  "Error: Resolution criteria must be specific and detailed (at least 20 characters).".data

/-- Web sources actually used: an absent or empty list is replaced by the single default CoinDesk URL (`params.web_sources = [...]` in the source). -/
def pmSources (p : CreatePMParams) : List (List Char) :=
  match p.web_sources with
  | none => ["https://api.coindesk.com/v1/bpi/currentprice.json".data]
  | some [] => ["https://api.coindesk.com/v1/bpi/currentprice.json".data]
  | some l => l

/-- Numbered Markdown list of the web sources (`map((source, i) => ...).join`). -/
def pmSrcListMd (l : List (List Char)) : List Char :=
  List.intercalate ("\n".data) (l.enum.map (fun q => (Nat.repr (q.1 + 1)).data ++ ". ".data ++ q.2))

/-- The generated market contract embedded in the tool report. -/
def pmMarketCode (p : CreatePMParams) : List Char :=
  GenLayerContractGenerator.createPredictionMarket p.market_name p.description (p.resolution_criteria.getD []) (pmSources p)

/-- Markdown report of `createPredictionMarket` preceding the embedded contract code. -/
def pmIntro (p : CreatePMParams) : List Char :=
  let marketName := p.market_name
  let descArg := p.description
  let catEcho := match p.category with | none => "General".data | some c => if c.isEmpty then ("General".data) else c
  let critArg := p.resolution_criteria.getD []
  let dlEcho := match p.resolution_deadline with | none => "No specific deadline".data | some d => if d.isEmpty then ("No specific deadline".data) else d
  let srcLen := (Nat.repr (pmSources p).length).data
  let srcListMd := pmSrcListMd (pmSources p)
  "# Generated Prediction Market: ".data ++ marketName ++ "\n\n## Market Details\n- **Description**: ".data ++ descArg ++ "\n- **Category**: ".data ++ catEcho ++ "\n- **Resolution Criteria**: ".data ++ critArg ++ "\n- **Resolution Deadline**: ".data ++ dlEcho ++ "\n- **Data Sources**: ".data ++ srcLen ++ " configured\n\n## Features\n✅ AI-powered resolution using real-world data\n✅ Multi-source data verification\n✅ Proportional payout system\n✅ Detailed betting history\n✅ User position tracking\n✅ Confidence scoring\n\n## Data Sources\n".data ++ srcListMd ++ "\n\n## Contract Code\n\n```python\n".data

/-- Markdown trailer of `createPredictionMarket` following the embedded contract code (the usage example interpolates the market name again). -/
def pmOutro (p : CreatePMParams) : List Char :=
  let marketName := p.market_name
  "\n```\n\n## How It Works\n1. **Betting Phase**: Users place bets on YES/NO outcomes\n2. **Resolution Phase**: AI analyzes data from configured web sources\n3. **Payout Phase**: Winners claim proportional rewards\n\n## Usage Example\n```python\n# Deploy the market\nmarket = ".data ++ marketName ++ "()\n\n# Place a bet (payable method)\nresult = market.place_bet(True, \"high\")  # Bet YES with high confidence\n\n# Check market status\ninfo = market.get_market_info()\n\n# Resolve when ready (AI-powered)\nresolution = market.resolve_market()\n\n# Claim winnings if you won\nwinnings = market.claim_winnings()\n```".data

/-- Success content of `createPredictionMarket`. -/
def pmSuccessContent (p : CreatePMParams) : List Char :=
  pmIntro p ++ pmMarketCode p ++ pmOutro p

/-- The criteria-validation condition of `createPredictionMarket`: `!params.resolution_criteria || params.resolution_criteria.length < 20`. -/
def pmCritCheckFails (p : CreatePMParams) : Bool :=
  match p.resolution_criteria with
  | none => true
  | some s => s.isEmpty || decide (s.length < 20)

/-- Embedding of `GenLayerTools.createPredictionMarket`: market-name and resolution-criteria validation, web-source defaulting, then generation and Markdown wrapping. -/
def createPredictionMarket (p : CreatePMParams) : ToolResult :=
  if !(marketNameTest p.market_name) then
    { content := pmNameError, isError := true }
  else if pmCritCheckFails p then
    { content := pmCritError, isError := true }
  else
    { content := pmSuccessContent p, isError := false }

/-- Parameter object of `GenLayerTools.createVectorStore`. -/
structure CreateVSParams where
  store_name : List Char
  description : List Char
  metadata_fields : Option (List VectorStoreMetadata)

/-- Embedding of `GenLayerTools.createVectorStore`: no validation is performed; the generator is called directly and its output wrapped. -/
def createVectorStore (p : CreateVSParams) : ToolResult :=
  { content := "Generated Vector Store: ".data ++ p.store_name ++ "\n\n".data ++
      GenLayerContractGenerator.createVectorStore p.store_name p.description (p.metadata_fields.getD []),
    isError := false }

end GenLayerTools
namespace GenLayerTools

/-- Condition named by the claims for `generateIntelligentContract`:
the contract name is absent or fails the PascalCase pattern. -/
def icNameBad (p : GenerateICParams) : Bool :=
  match p.contract_name with
  | none => true
  | some s => !(pascalCaseTest s)

/-- Condition named by the claims for `generateIntelligentContract`:
the requirements string is absent or its trimmed length is below 10. -/
def icReqBad (p : GenerateICParams) : Bool :=
  match p.requirements with
  | none => true
  | some s => decide ((jsTrim s).length < 10)

/-- Condition named by the claims for `createPredictionMarket`: the
resolution criteria are absent or shorter than 20 characters (untrimmed,
as in the source). -/
def pmCritBad (p : CreatePMParams) : Bool :=
  match p.resolution_criteria with
  | none => true
  | some s => decide (s.length < 20)

end GenLayerTools

/-- Sample call of `generateIntelligentContract` exercising the template
path: valid PascalCase name, long-enough requirements, the
`dao_governance` template, and both augmenter flags set (which the
template path ignores). -/
def sampleTemplateParams : GenLayerTools.GenerateICParams :=
  ⟨some ("Foo".data), some ("this contract manages proposals".data), some true, some true, none,
    some ("dao_governance".data)⟩

/-- Sample call of `generateIntelligentContract` whose `template_type` is
the empty string: the string is present and differs from `basic`, but it
is JavaScript-falsy, so the source takes the basic path and, because
`use_llm` is set, appends the LLM method block. -/
def emptyTemplateParams : GenLayerTools.GenerateICParams :=
  ⟨some ("Foo".data), some ("store and retrieve data".data), some true, none, none, some []⟩

/-- Sample call of the vector-store tool whose store name is not
PascalCase. -/
def badStoreParams : GenLayerTools.CreateVSParams :=
  ⟨"bad_store".data, "A description".data, none⟩

set_option maxRecDepth 8000

theorem isEmpty_append_list (x y : List Char) : (x ++ y).isEmpty = (x.isEmpty && y.isEmpty) := by
  cases x <;> simp [List.isEmpty]

theorem lookup_mem_values {α β : Type} [BEq α] (l : List (α × β)) (k : α) (v : β)
    (h : List.lookup k l = some v) : v ∈ l.map Prod.snd := by
  induction l with
  | nil => simp [List.lookup] at h
  | cons x xs ih =>
    obtain ⟨a, b⟩ := x
    rw [List.lookup] at h
    split at h
    · cases h; simp
    · simpa using Or.inr (ih h)

theorem isInfix_append_right_of (m x y : List Char) (h : List.IsInfix m x) :
    List.IsInfix m (x ++ y) :=
  h.trans ((List.prefix_append x y).isInfix)

theorem foldl_append_flatten {α : Type} (g : α → List Char) (l : List α) (acc : List Char) :
    List.foldl (fun a f => a ++ g f) acc l = acc ++ (l.map g).flatten := by
  induction l generalizing acc with
  | nil => simp
  | cons x xs ih => simp [ih, List.append_assoc]

theorem jsTrimEnd_append_of_ne (x y : List Char)
    (h : (y.reverse.dropWhile jsWhitespace).isEmpty = false) :
    jsTrimEnd (x ++ y) = x ++ jsTrimEnd y := by
  unfold jsTrimEnd
  rw [List.reverse_append, List.dropWhile_append, h]
  simp

theorem jsTrimEnd_append_of_ws (x y : List Char)
    (h : (y.reverse.dropWhile jsWhitespace).isEmpty = true) :
    jsTrimEnd (x ++ y) = jsTrimEnd x := by
  unfold jsTrimEnd
  rw [List.reverse_append, List.dropWhile_append, h]
  simp

theorem rev_dropWhile_append_ne (x y : List Char)
    (h : (y.reverse.dropWhile jsWhitespace).isEmpty = false) :
    (((x ++ y).reverse.dropWhile jsWhitespace)).isEmpty = false := by
  rw [List.reverse_append, List.dropWhile_append, h]
  simp only [Bool.false_eq_true, if_false, isEmpty_append_list, h, Bool.false_and]

theorem append_parens_nonempty (t : List Char) : (t ++ "()".data).isEmpty = false := by
  cases t <;> rfl

namespace GenLayerContractGenerator

theorem typeMap_values_nonempty : ∀ w ∈ typeMap.map Prod.snd, w.isEmpty = false := by decide

theorem defaultsMap_values_nonempty : ∀ w ∈ defaultsMap.map Prod.snd, w.isEmpty = false := by decide

theorem mapGenLayerType_lookup_eq (s : List Char) :
    mapGenLayerType s = (List.lookup (jsToLower s) typeMap).getD s := by
  unfold mapGenLayerType
  cases h : List.lookup (jsToLower s) typeMap <;> simp [h]

theorem mapGenLayerType_isEmpty (s : List Char) :
    (mapGenLayerType s).isEmpty = s.isEmpty := by
  cases hs : s with
  | nil => decide
  | cons a as =>
    unfold mapGenLayerType
    cases h : List.lookup (jsToLower (a :: as)) typeMap with
    | none => simp
    | some v =>
      simp only [List.isEmpty_cons]
      exact typeMap_values_nonempty v (lookup_mem_values _ _ _ h)

end GenLayerContractGenerator

/-- C1: for every template tag outside the four recognized tags (including
`basic` and arbitrary strings), `generateAdvancedContractTemplate` returns
exactly `generateBaseContract` applied to the same name and the empty field
list, for every custom-parameter object. -/
theorem claim1_unknown_template_falls_back (tag contractName : List Char)
    (customParams : CustomParams)
    (h1 : tag ≠ "dao_governance".data) (h2 : tag ≠ "content_moderation".data)
    (h3 : tag ≠ "sentiment_tracker".data) (h4 : tag ≠ "multi_oracle".data) :
    GenLayerContractGenerator.generateAdvancedContractTemplate tag contractName customParams
      = GenLayerContractGenerator.generateBaseContract contractName [] := by
  simp [GenLayerContractGenerator.generateAdvancedContractTemplate, h1, h2, h3, h4]

/-- Witness for C1: the tag `basic` is outside the recognized set and falls
back to the empty-field base contract. -/
theorem claim1_witness :
    ("basic".data ≠ "dao_governance".data ∧ "basic".data ≠ "content_moderation".data
      ∧ "basic".data ≠ "sentiment_tracker".data ∧ "basic".data ≠ "multi_oracle".data)
    ∧ GenLayerContractGenerator.generateAdvancedContractTemplate ("basic".data) "Foo".data []
        = GenLayerContractGenerator.generateBaseContract ("Foo".data) [] :=
  ⟨⟨by decide, by decide, by decide, by decide⟩,
    claim1_unknown_template_falls_back ("basic".data) "Foo".data []
      (by decide) (by decide) (by decide) (by decide)⟩

/-- C2 counterexample: on the empty string the type mapper returns the empty
string (`typeMap[""]` is absent, so `|| type` yields `""` back), refuting
the claim's "never returns the empty string". -/
theorem claim2_counterexample :
    GenLayerContractGenerator.mapGenLayerType ("".data) = [] := by decide

/-- C2 (amended): `mapGenLayerType` is the total table lookup on the
lowercased input with identity fallback, maps each table key to its fixed
entry, and returns the empty string exactly on the empty input (instead of
"never"). -/
theorem claim2_type_mapping_amended :
    (∀ s : List Char,
        GenLayerContractGenerator.mapGenLayerType s
          = (List.lookup (jsToLower s) GenLayerContractGenerator.typeMap).getD s
        ∧ (GenLayerContractGenerator.mapGenLayerType s).isEmpty = s.isEmpty)
    ∧ (GenLayerContractGenerator.mapGenLayerType ("string".data) = "str".data
      ∧ GenLayerContractGenerator.mapGenLayerType ("text".data) = "str".data
      ∧ GenLayerContractGenerator.mapGenLayerType ("integer".data) = "u256".data
      ∧ GenLayerContractGenerator.mapGenLayerType ("int".data) = "u256".data
      ∧ GenLayerContractGenerator.mapGenLayerType ("number".data) = "u256".data
      ∧ GenLayerContractGenerator.mapGenLayerType ("timestamp".data) = "u256".data
      ∧ GenLayerContractGenerator.mapGenLayerType ("float".data) = "f64".data
      ∧ GenLayerContractGenerator.mapGenLayerType ("decimal".data) = "f64".data
      ∧ GenLayerContractGenerator.mapGenLayerType ("boolean".data) = "bool".data
      ∧ GenLayerContractGenerator.mapGenLayerType ("bool".data) = "bool".data
      ∧ GenLayerContractGenerator.mapGenLayerType ("address".data) = "Address".data
      ∧ GenLayerContractGenerator.mapGenLayerType ("list".data) = "DynArray[str]".data
      ∧ GenLayerContractGenerator.mapGenLayerType ("array".data) = "DynArray[str]".data
      ∧ GenLayerContractGenerator.mapGenLayerType ("dict".data) = "TreeMap[str, str]".data
      ∧ GenLayerContractGenerator.mapGenLayerType ("dictionary".data) = "TreeMap[str, str]".data
      ∧ GenLayerContractGenerator.mapGenLayerType ("map".data) = "TreeMap[str, str]".data
      ∧ GenLayerContractGenerator.mapGenLayerType ("bytes".data) = "bytes".data
      ∧ GenLayerContractGenerator.mapGenLayerType ("Integer".data) = "u256".data
      ∧ GenLayerContractGenerator.mapGenLayerType ("somethingElse".data) = "somethingElse".data) :=
  ⟨fun s => ⟨GenLayerContractGenerator.mapGenLayerType_lookup_eq s,
             GenLayerContractGenerator.mapGenLayerType_isEmpty s⟩,
   by decide⟩

/-- C3: `getDefaultValue` is total and never returns an empty string: the
`DynArray`/`TreeMap` prefixes invoke the type as a zero-argument
constructor, the six fixed table entries are returned for their keys, and
every other type falls back to a zero-argument constructor call. -/
theorem claim3_default_value_total :
    (∀ t : List Char,
        GenLayerContractGenerator.getDefaultValue t
          = (if (List.isPrefixOf ("DynArray".data) t || List.isPrefixOf ("TreeMap".data) t)
              then t ++ "()".data
              else (List.lookup t GenLayerContractGenerator.defaultsMap).getD (t ++ "()".data))
        ∧ (GenLayerContractGenerator.getDefaultValue t).isEmpty = false)
    ∧ (GenLayerContractGenerator.getDefaultValue ("str".data) = "\"\"".data
      ∧ GenLayerContractGenerator.getDefaultValue ("u256".data) = "u256(0)".data
      ∧ GenLayerContractGenerator.getDefaultValue ("f64".data) = "0.0".data
      ∧ GenLayerContractGenerator.getDefaultValue ("bool".data) = "False".data
      ∧ GenLayerContractGenerator.getDefaultValue ("Address".data)
          = "Address('0x0000000000000000000000000000000000000000')".data
      ∧ GenLayerContractGenerator.getDefaultValue ("bytes".data) = "b''".data
      ∧ GenLayerContractGenerator.getDefaultValue ("DynArray[u256]".data) = "DynArray[u256]()".data
      ∧ GenLayerContractGenerator.getDefaultValue ("TreeMap[str, str]".data) = "TreeMap[str, str]()".data
      ∧ GenLayerContractGenerator.getDefaultValue ("CustomThing".data) = "CustomThing()".data) := by
  constructor
  · intro t
    constructor
    · unfold GenLayerContractGenerator.getDefaultValue
      by_cases h1 : List.isPrefixOf ("DynArray".data) t
      · simp [h1]
      · by_cases h2 : List.isPrefixOf ("TreeMap".data) t
        · simp [h1, h2]
        · cases h : List.lookup t GenLayerContractGenerator.defaultsMap <;> simp [h1, h2, h]
    · unfold GenLayerContractGenerator.getDefaultValue
      by_cases h1 : List.isPrefixOf ("DynArray".data) t
      · simp [h1, append_parens_nonempty]
      · by_cases h2 : List.isPrefixOf ("TreeMap".data) t
        · simp [h1, h2, append_parens_nonempty]
        · cases h : List.lookup t GenLayerContractGenerator.defaultsMap with
          | none => simp [h1, h2, h, append_parens_nonempty]
          | some v =>
            simp only [h1, h2, h, Bool.false_eq_true, if_false]
            exact GenLayerContractGenerator.defaultsMap_values_nonempty v (lookup_mem_values _ _ _ h)
  · decide

namespace GenLayerContractGenerator

theorem llm_rev_dropWhile_ne (r : List Char) :
    (((llmMethods r).reverse.dropWhile jsWhitespace)).isEmpty = false := by
  have hshape : llmMethods r
      = (llmPart1 ++ r ++ llmPart2 ++ r ++ llmPart3 ++ r ++ llmPart4 ++ r ++ llmPart5)
          ++ (llmPart6 ++ llmPart7) := by
    simp [llmMethods, List.append_assoc]
  rw [hshape]
  exact rev_dropWhile_append_ne _ _ (by decide)

theorem llm_trimEnd_eq (r : List Char) :
    jsTrimEnd (llmMethods r)
      = llmPart1 ++ r ++ llmPart2 ++ r ++ llmPart3 ++ r ++ llmPart4 ++ r ++ llmPart5 ++ llmPart6 := by
  have hshape : llmMethods r
      = ((llmPart1 ++ r ++ llmPart2 ++ r ++ llmPart3 ++ r ++ llmPart4 ++ r ++ llmPart5)
          ++ llmPart6) ++ llmPart7 := by
    simp [llmMethods, List.append_assoc]
  rw [hshape, jsTrimEnd_append_of_ws _ _ (by decide),
    jsTrimEnd_append_of_ne _ _ (by decide),
    show jsTrimEnd llmPart6 = llmPart6 from by decide]

theorem llm_block_decomp (r : List Char) :
    jsTrimEnd (llmMethods r) ++ "\n    \n".data = llmMethods r := by
  rw [llm_trimEnd_eq]
  simp [llmMethods, llmPart7, List.append_assoc]

theorem llm_trim_nonempty (r : List Char) :
    (jsTrimEnd (llmMethods r)).isEmpty = false := by
  rw [llm_trimEnd_eq]
  rw [show llmPart1 ++ r ++ llmPart2 ++ r ++ llmPart3 ++ r ++ llmPart4 ++ r ++ llmPart5 ++ llmPart6
      = llmPart1 ++ (r ++ llmPart2 ++ r ++ llmPart3 ++ r ++ llmPart4 ++ r ++ llmPart5 ++ llmPart6)
    from by simp [List.append_assoc]]
  rw [isEmpty_append_list, show llmPart1.isEmpty = false from by decide]
  rfl

end GenLayerContractGenerator

/-- C4: both augmenters are unconditional trim-then-append operations:
`addLLMInteractions c r` is `trimEnd c` followed by the fixed LLM method
block with `r` interpolated, `addWebDataAccess` has the same structure with
its own fixed block, and applying `addLLMInteractions` twice produces the
(trimmed) LLM method block text twice in sequence, separated only by the
block's own trailing whitespace, with the trimmed block nonempty -- the
append is unconditional, with no deduplication, hence not idempotent. -/
theorem claim4_augmenters_trim_then_append (c r u pl : List Char) :
    GenLayerContractGenerator.addLLMInteractions c r
      = jsTrimEnd c ++ GenLayerContractGenerator.llmMethods r
    ∧ GenLayerContractGenerator.addWebDataAccess c u pl
      = jsTrimEnd c ++ GenLayerContractGenerator.webMethod u pl
    ∧ GenLayerContractGenerator.addLLMInteractions
        (GenLayerContractGenerator.addLLMInteractions c r) r
      = jsTrimEnd c ++ jsTrimEnd (GenLayerContractGenerator.llmMethods r)
          ++ jsTrimEnd (GenLayerContractGenerator.llmMethods r) ++ "\n    \n".data
    ∧ (jsTrimEnd (GenLayerContractGenerator.llmMethods r)).isEmpty = false := by
  refine ⟨rfl, rfl, ?_, GenLayerContractGenerator.llm_trim_nonempty r⟩
  show jsTrimEnd (jsTrimEnd c ++ GenLayerContractGenerator.llmMethods r)
      ++ GenLayerContractGenerator.llmMethods r = _
  rw [jsTrimEnd_append_of_ne _ _ (GenLayerContractGenerator.llm_rev_dropWhile_ne r)]
  simp only [List.append_assoc]
  rw [GenLayerContractGenerator.llm_block_decomp r]

/-- C5: the base-contract builder emits the field declarations, the
constructor parameters, the constructor assignments and the per-field
getters each as the in-order concatenation over the input field list
(`map` then `flatten`/`intercalate`); fields are never reordered. -/
theorem claim5_field_order_preserved (contractName : List Char) (fields : List ContractField) :
    GenLayerContractGenerator.generateBaseContract contractName fields
      = GenLayerContractGenerator.baseHeader contractName
        ++ (if fields.isEmpty then []
            else (fields.map GenLayerContractGenerator.fieldDeclLine).flatten ++ "\n".data)
        ++ "    def __init__(self".data
        ++ (if fields.isEmpty then []
            else (", ".data) ++ List.intercalate (", ".data) (fields.map GenLayerContractGenerator.initParam))
        ++ "):\n".data
        ++ (if fields.isEmpty then ("        pass\n".data)
            else (fields.map GenLayerContractGenerator.assignLine).flatten)
        ++ "\n".data
        ++ GenLayerContractGenerator.infoBlock contractName
        ++ (if fields.isEmpty then []
            else (fields.map GenLayerContractGenerator.getterBlock).flatten) := by
  cases fields with
  | nil => simp [GenLayerContractGenerator.generateBaseContract]
  | cons f fs =>
    simp only [GenLayerContractGenerator.generateBaseContract, List.isEmpty_cons,
      Bool.false_eq_true, if_false, foldl_append_flatten]
    simp [List.append_assoc]

theorem ic_name_checks_agree (p : GenLayerTools.GenerateICParams) :
    GenLayerTools.icNameCheckFails p = GenLayerTools.icNameBad p := by
  unfold GenLayerTools.icNameCheckFails GenLayerTools.icNameBad
  cases p.contract_name with
  | none => rfl
  | some s => cases s with
    | nil => rfl
    | cons a as => simp

theorem ic_req_checks_agree (p : GenLayerTools.GenerateICParams) :
    GenLayerTools.icReqCheckFails p = GenLayerTools.icReqBad p := by
  unfold GenLayerTools.icReqCheckFails GenLayerTools.icReqBad
  cases p.requirements with
  | none => rfl
  | some s => cases s with
    | nil => decide
    | cons a as => simp

theorem pm_crit_checks_agree (p : GenLayerTools.CreatePMParams) :
    GenLayerTools.pmCritCheckFails p = GenLayerTools.pmCritBad p := by
  unfold GenLayerTools.pmCritCheckFails GenLayerTools.pmCritBad
  cases p.resolution_criteria with
  | none => rfl
  | some s => cases s with
    | nil => decide
    | cons a as => simp

/-- C6: `generateIntelligentContract` returns `isError = true` exactly when
the contract name is absent or fails the PascalCase pattern or the
requirements are absent or shorter than 10 characters after trimming; on a
name failure the returned content is the fixed error message, which
contains the word `PascalCase`; when both checks pass the result is the
success report around the generated code with no error flag. -/
theorem claim6_intelligent_contract_validation (p : GenLayerTools.GenerateICParams) :
    (GenLayerTools.generateIntelligentContract p).isError
      = (GenLayerTools.icNameBad p || GenLayerTools.icReqBad p)
    ∧ (GenLayerTools.generateIntelligentContract p).content
      = (if GenLayerTools.icNameBad p then GenLayerTools.icNameError p
         else if GenLayerTools.icReqBad p then GenLayerTools.icReqError
         else GenLayerTools.icSuccessContent p)
    ∧ List.IsInfix ("PascalCase".data) (GenLayerTools.icNameError p) := by
  refine ⟨?_, ?_, isInfix_append_right_of _ _ _ (by decide)⟩
  · simp only [GenLayerTools.generateIntelligentContract, ic_name_checks_agree,
      ic_req_checks_agree]
    cases hn : GenLayerTools.icNameBad p <;> cases hr : GenLayerTools.icReqBad p <;> simp
  · simp only [GenLayerTools.generateIntelligentContract, ic_name_checks_agree,
      ic_req_checks_agree]
    cases hn : GenLayerTools.icNameBad p <;> cases hr : GenLayerTools.icReqBad p <;> simp

/-- C7: `createPredictionMarket` errors exactly when the market name fails
the PascalCase-ending-in-`Market` pattern or the resolution criteria are
absent or shorter than 20 characters; otherwise it succeeds and its report
embeds the generated market contract built over `pmSources p`, which is the
single default CoinDesk URL whenever `web_sources` is absent or empty. -/
theorem claim7_prediction_market_validation_and_default (p : GenLayerTools.CreatePMParams) :
    (GenLayerTools.createPredictionMarket p).isError
      = (!(marketNameTest p.market_name) || GenLayerTools.pmCritBad p)
    ∧ (GenLayerTools.createPredictionMarket p).content
      = (if !(marketNameTest p.market_name) then GenLayerTools.pmNameError
         else if GenLayerTools.pmCritBad p then GenLayerTools.pmCritError
         else GenLayerTools.pmSuccessContent p)
    ∧ GenLayerTools.pmSources p
      = (match p.web_sources with
         | none => ["https://api.coindesk.com/v1/bpi/currentprice.json".data]
         | some [] => ["https://api.coindesk.com/v1/bpi/currentprice.json".data]
         | some (s :: rest) => s :: rest)
    ∧ List.IsInfix (GenLayerTools.pmMarketCode p) (GenLayerTools.pmSuccessContent p)
    ∧ GenLayerTools.pmMarketCode p
      = GenLayerContractGenerator.createPredictionMarket p.market_name p.description
          (p.resolution_criteria.getD []) (GenLayerTools.pmSources p) := by
  refine ⟨?_, ?_, ?_, ⟨GenLayerTools.pmIntro p, GenLayerTools.pmOutro p, rfl⟩, rfl⟩
  · simp only [GenLayerTools.createPredictionMarket, pm_crit_checks_agree]
    cases hm : marketNameTest p.market_name <;> cases hc : GenLayerTools.pmCritBad p <;> simp
  · simp only [GenLayerTools.createPredictionMarket, pm_crit_checks_agree]
    cases hm : marketNameTest p.market_name <;> cases hc : GenLayerTools.pmCritBad p <;> simp
  · cases hw : p.web_sources with
    | none => simp [GenLayerTools.pmSources, hw]
    | some l => cases l with
      | nil => simp [GenLayerTools.pmSources, hw]
      | cons a as => simp [GenLayerTools.pmSources, hw]

/-- C8 counterexample: `bad_store` is not PascalCase, yet the
create-vector-store tool returns a success result for it -- the claimed
store-name validation does not exist in this code path. -/
theorem claim8_counterexample :
    pascalCaseTest badStoreParams.store_name = false
    ∧ (GenLayerTools.createVectorStore badStoreParams).isError = false :=
  ⟨by decide, rfl⟩

/-- C8 (amended): the create-vector-store tool performs no store-name
validation at all: for every parameter object (PascalCase or not) it calls
the generator directly and returns a success result wrapping the generated
contract. -/
theorem claim8_store_name_not_validated (p : GenLayerTools.CreateVSParams) :
    (GenLayerTools.createVectorStore p).isError = false
    ∧ (GenLayerTools.createVectorStore p).content
      = "Generated Vector Store: ".data ++ p.store_name ++ "\n\n".data
        ++ GenLayerContractGenerator.createVectorStore p.store_name p.description
            (p.metadata_fields.getD []) :=
  ⟨rfl, rfl⟩

/-- C9: the vector-store generator's output does not depend on the metadata
field list in any way: two calls differing only in metadata fields are
byte-identical (the output is a function of the store name and description
alone). -/
theorem claim9_metadata_fields_ignored (storeName description : List Char)
    (mf₁ mf₂ : List VectorStoreMetadata) :
    GenLayerContractGenerator.createVectorStore storeName description mf₁
      = GenLayerContractGenerator.createVectorStore storeName description mf₂ := rfl

/-- C10 counterexample: with `template_type` equal to the empty string the
template type is present and differs from `basic`, but the JavaScript
truthiness test fails, so the basic path runs and (with `use_llm` set) the
generated code is not `generateAdvancedContractTemplate("", name, {})` as
the claim would require. -/
theorem claim10_counterexample :
    emptyTemplateParams.template_type = some []
    ∧ GenLayerTools.icUseTemplate emptyTemplateParams = false
    ∧ ((GenLayerTools.icContractCode emptyTemplateParams
          == GenLayerContractGenerator.generateAdvancedContractTemplate [] "Foo".data
              ([] : CustomParams)) = false) :=
  ⟨rfl, rfl, by decide⟩

/-- C10 (amended): when a present, non-empty template type other than
`basic` is requested and validation passes, the generated code is exactly
`generateAdvancedContractTemplate` on that tag and the contract name with
empty custom parameters, the call succeeds with the Markdown report around
that code, and the `use_llm` / `web_access` / `storage_fields` parameters
have no effect on the generated contract code on this path. -/
theorem claim10_template_path_ignores_flags (p : GenLayerTools.GenerateICParams)
    (t : List Char) (h1 : p.template_type = some t) (h2 : t.isEmpty = false)
    (h3 : (t == "basic".data) = false)
    (h4 : GenLayerTools.icNameBad p = false) (h5 : GenLayerTools.icReqBad p = false) :
    GenLayerTools.icContractCode p
      = GenLayerContractGenerator.generateAdvancedContractTemplate t
          (p.contract_name.getD []) []
    ∧ (GenLayerTools.generateIntelligentContract p).isError = false
    ∧ (GenLayerTools.generateIntelligentContract p).content = GenLayerTools.icSuccessContent p
    ∧ (∀ b₁ b₂ sf, GenLayerTools.icContractCode
          { p with use_llm := b₁, web_access := b₂, storage_fields := sf }
        = GenLayerTools.icContractCode p) := by
  have huse : GenLayerTools.icUseTemplate p = true := by
    simp [GenLayerTools.icUseTemplate, h1, h2, h3]
  refine ⟨?_, ?_, ?_, ?_⟩
  · simp [GenLayerTools.icContractCode, huse, h1]
  · simp [GenLayerTools.generateIntelligentContract, ic_name_checks_agree,
      ic_req_checks_agree, h4, h5]
  · simp [GenLayerTools.generateIntelligentContract, ic_name_checks_agree,
      ic_req_checks_agree, h4, h5]
  · intro b₁ b₂ sf
    have huse2 : GenLayerTools.icUseTemplate
        { p with use_llm := b₁, web_access := b₂, storage_fields := sf } = true := by
      simp [GenLayerTools.icUseTemplate, h1, h2, h3]
    simp [GenLayerTools.icContractCode, huse, huse2]

/-- Witness for C10 (amended): the `dao_governance` template path with a
valid name and requirements and both augmenter flags set. -/
theorem claim10_witness :
    ("dao_governance".data.isEmpty = false
      ∧ ("dao_governance".data == "basic".data) = false
      ∧ GenLayerTools.icNameBad sampleTemplateParams = false
      ∧ GenLayerTools.icReqBad sampleTemplateParams = false)
    ∧ GenLayerTools.icContractCode sampleTemplateParams
        = GenLayerContractGenerator.generateAdvancedContractTemplate ("dao_governance".data)
            "Foo".data []
    ∧ (GenLayerTools.generateIntelligentContract sampleTemplateParams).isError = false :=
  ⟨⟨by decide, by decide, by decide, by decide⟩,
   (claim10_template_path_ignores_flags sampleTemplateParams ("dao_governance".data) rfl
      (by decide) (by decide) (by decide) (by decide)).1,
   (claim10_template_path_ignores_flags sampleTemplateParams ("dao_governance".data) rfl
      (by decide) (by decide) (by decide) (by decide)).2.1⟩

end GenLayerMCP
